import Mathlib

/-!
Verification development for the book-heaven-server repository: a shallow
embedding of the Express route handlers in `index.js` (token-verification
middleware, and the six book-collection routes backed by MongoDB
`insertOne` / `find` / `findOne` / `updateOne` / `deleteOne` calls),
together with theorems settling the specification claims about them.

Modelling conventions:
- A JSON document (a request body or a stored book document minus its
  `_id`) is an association list `Doc` of field name / field value pairs;
  field values are opaque strings.  JS object spread with trailing
  overrides (`{...body, userEmail: e, ...}`) and Mongo `$set` both become
  in-place field replacement (`setField` / `mergeDoc`), matching JS key
  semantics: an existing key keeps its position and gets the new value, a
  new key is appended.
- Mongo `ObjectId` values are modelled as `Nat`; `new ObjectId(s)`
  throwing on a malformed 24-hex-character string becomes the `Option`
  returning `parseObjectId`, and the surrounding `try/catch` in every
  handler becomes the `none` branch producing the 500 JSON error response.
- The external identity provider (`admin.auth().verifyIdToken`) is a
  parameter `verify : String → Option Identity`: `some` is the resolved
  promise carrying the decoded claim, `none` the rejected promise caught
  by the middleware.
- The database is the in-memory state `DB` (the `books` collection plus
  the next storage-generated identifier); each handler maps a state to a
  response/state pair.  "The storage layer is not invoked" is expressed as
  the response being independent of the `DB` argument together with the
  state coming back unchanged, and "the provider is not invoked" as the
  result being independent of the `verify` parameter.
-/

/-- Field name / value pairs of a JSON object, in key order. -/
abbrev Doc := List (String × String)

/-- Lookup of a field in a document (first occurrence). -/
def getField : Doc → String → Option String
| [], _ => none
| (k', v) :: rest, k => if k' = k then some v else getField rest k

/-- JS-style field write: an existing key keeps its position and receives
the new value, a missing key is appended at the end.  This is the meaning
of a trailing override in an object spread and of one `$set` entry. -/
def setField : Doc → String → String → Doc
| [], k, v => [(k, v)]
| (k', v') :: rest, k, v =>
  if k' = k then (k, v) :: rest else (k', v') :: setField rest k v

/-- Mongo `$set` with update document `upd`: every field of `upd` is
written into the stored document, other fields are untouched. -/
def mergeDoc (base upd : Doc) : Doc :=
  upd.foldl (fun d p => setField d p.1 p.2) base

/-- JS `a || b` on an optional string `a` (JS treats the empty string as
falsy, as it treats `undefined`). -/
def jsOrStr (a : Option String) (b : String) : String :=
match a with
| some s => if s = "" then b else s
| none => b

/-- JS `String.prototype.split` with a one-character separator, on the
character list of the string: `"".split` is `[""]`, separators at the ends
produce empty segments. -/
def splitOnChar (sep : Char) : List Char → List (List Char)
| [] => [[]]
| c :: cs =>
  match splitOnChar sep cs with
  | [] => if c = sep then [[], []] else [[c]]
  | h :: t => if c = sep then [] :: h :: t else (c :: h) :: t

/-- JS `header.split(" ")`. -/
def jsSplit (s : String) : List String :=
  (splitOnChar ' ' s.data).map List.asString

/-- JS `s.startsWith(p)`. -/
def jsStartsWith (s p : String) : Bool :=
  p.data.isPrefixOf s.data

/-- Decoded identity claim attached to the request by the middleware:
`req.user.email` and the optional `req.user.name`. -/
structure Identity where
  email : String
  name : Option String
deriving DecidableEq

/-- Stored book document: the storage-generated `_id` plus the remaining
fields. -/
structure BookRecord where
  oid : Nat
  fields : Doc
deriving DecidableEq

/-- State of the `books` collection: stored documents in insertion order,
and the next identifier the storage layer will generate. -/
structure DB where
  books : List BookRecord
  nextId : Nat
deriving DecidableEq

/-- Mongo `insertOne`: assigns the generated identifier, appends the
document, and returns the new state with `insertedId`. -/
def insertOne (db : DB) (d : Doc) : DB × Nat :=
  (⟨db.books ++ [⟨db.nextId, d⟩], db.nextId + 1⟩, db.nextId)

/-- Mongo `updateOne`: rewrites the first record matching the filter with
`f` and reports `matchedCount` (`1` if some record matched, else `0`). -/
def updateFirst (p : BookRecord → Bool) (f : BookRecord → BookRecord) :
    List BookRecord → List BookRecord × Nat
| [] => ([], 0)
| b :: rest =>
  if p b then (f b :: rest, 1)
  else
    match updateFirst p f rest with
    | (rest', n) => (b :: rest', n)

/-- Mongo `deleteOne`: removes the first record matching the filter and
reports `deletedCount`. -/
def deleteFirst (p : BookRecord → Bool) :
    List BookRecord → List BookRecord × Nat
| [] => ([], 0)
| b :: rest =>
  if p b then (rest, 1)
  else
    match deleteFirst p rest with
    | (rest', n) => (b :: rest', n)

/-- Hexadecimal digit test, as accepted by the `ObjectId` constructor. -/
def isHexDigit (c : Char) : Bool :=
  (('0' ≤ c) && (c ≤ '9')) || (('a' ≤ c) && (c ≤ 'f')) ||
    (('A' ≤ c) && (c ≤ 'F'))

/-- Numeric value of one hexadecimal digit. -/
def hexDigitVal (c : Char) : Nat :=
  if ('0' ≤ c) && (c ≤ '9') then c.toNat - '0'.toNat
  else if ('a' ≤ c) && (c ≤ 'f') then c.toNat - 'a'.toNat + 10
  else c.toNat - 'A'.toNat + 10

/-- Mongo `new ObjectId(s)`: succeeds exactly on a 24-character
hexadecimal string, whose value we read as a number; a malformed string
makes the constructor throw, modelled as `none`. -/
def parseObjectId (s : String) : Option Nat :=
  if s.data.length = 24 && s.data.all isHexDigit then
    some (s.data.foldl (fun n c => 16 * n + hexDigitVal c) 0)
  else none

/-- Body of an HTTP response: `res.send` of plain text, `res.json` of an
object, or `res.json` of an array of documents. -/
inductive Body where
| text (s : String)
| obj (fields : Doc)
| arr (docs : List Doc)
deriving DecidableEq

/-- HTTP response: status code (`res.json` without `res.status` is 200)
and body. -/
structure Resp where
  status : Nat
  body : Body
deriving DecidableEq

/-- Serialization of a stored record in a JSON response: the `_id`
followed by the document fields. -/
def bookToDoc (b : BookRecord) : Doc :=
  ("_id", toString b.oid) :: b.fields

/-- Filter of `updateOne` / `deleteOne` in the update and delete
handlers: `{ _id: oid, userEmail: email }`. -/
def ownerFilter (oid : Nat) (email : String) (b : BookRecord) : Bool :=
  decide (b.oid = oid ∧ getField b.fields "userEmail" = some email)

/-- Message of the JSON error response produced when the `ObjectId`
constructor throws inside a handler's `try` block (the `err.message`
surfaced by the `catch`). -/
def invalidIdMessage : String :=
  "input must be a 24 character hex string"

/-- The `verifyToken` middleware: reject without consulting the provider
when the `Authorization` header is absent or lacks the `Bearer ` prefix;
otherwise verify the second space-split segment, attaching the decoded
identity on success (`Sum.inr`) and answering 401 on failure. -/
def verifyToken (verify : String → Option Identity)
    (authHeader : Option String) : Sum Resp Identity :=
match authHeader with
| none => Sum.inl ⟨401, Body.obj [("message", "Unauthorized: No token provided")]⟩
| some h =>
  if jsStartsWith h "Bearer " then
    match verify ((jsSplit h).getD 1 "") with
    | some u => Sum.inr u
    | none => Sum.inl ⟨401, Body.obj [("message", "Unauthorized: Invalid token")]⟩
  else Sum.inl ⟨401, Body.obj [("message", "Unauthorized: No token provided")]⟩

/-- Handler of `POST /add-book`: spread the request body, then override
`userEmail`, `userName` and `createdAt` from the verified identity and
the server clock, insert, and answer with the generated identifier. -/
def addBookHandler (user : Identity) (body : Doc) (now : String)
    (db : DB) : Resp × DB :=
  let book := setField (setField (setField body "userEmail" user.email)
    "userName" (jsOrStr user.name user.email)) "createdAt" now
  let res := insertOne db book
  (⟨200, Body.obj [("message", "Book added successfully"),
    ("bookId", toString res.2)]⟩, res.1)

/-- Handler of `GET /all-books`: the whole collection, unfiltered. -/
def allBooksHandler (db : DB) : Resp × DB :=
  (⟨200, Body.arr (db.books.map bookToDoc)⟩, db)

/-- Handler of `GET /book-details/:id`: `findOne` on `_id` alone — no
ownership constraint — with 404 when nothing matches and 500 when the
identifier is malformed. -/
def bookDetailsHandler (id : String) (db : DB) : Resp × DB :=
match parseObjectId id with
| none => (⟨500, Body.obj [("error", invalidIdMessage)]⟩, db)
| some oid =>
  match db.books.find? (fun b => decide (b.oid = oid)) with
  | none => (⟨404, Body.obj [("message", "Book not found")]⟩, db)
  | some b => (⟨200, Body.obj (bookToDoc b)⟩, db)

/-- Handler of `GET /myBooks`: `find` filtered on the caller's email. -/
def myBooksHandler (user : Identity) (db : DB) : Resp × DB :=
  (⟨200, Body.arr ((db.books.filter
    (fun b => decide (getField b.fields "userEmail" = some user.email))).map
      bookToDoc)⟩, db)

/-- Handler of `PUT /update-book/:id`: `updateOne` with the owner-scoped
filter and `$set` of the request body; 404 with the shared
not-found-or-unauthorized message when `matchedCount` is zero. -/
def updateBookHandler (user : Identity) (id : String) (body : Doc)
    (db : DB) : Resp × DB :=
match parseObjectId id with
| none => (⟨500, Body.obj [("error", invalidIdMessage)]⟩, db)
| some oid =>
  let res := updateFirst (ownerFilter oid user.email)
    (fun b => ⟨b.oid, mergeDoc b.fields body⟩) db.books
  if res.2 = 0 then
    (⟨404, Body.obj [("message", "Book not found or unauthorized")]⟩, db)
  else
    (⟨200, Body.obj [("message", "Book updated successfully")]⟩,
      ⟨res.1, db.nextId⟩)

/-- Handler of `DELETE /delete-book/:id`: `deleteOne` with the
owner-scoped filter; 404 with the shared message when `deletedCount` is
zero. -/
def deleteBookHandler (user : Identity) (id : String) (db : DB) :
    Resp × DB :=
match parseObjectId id with
| none => (⟨500, Body.obj [("error", invalidIdMessage)]⟩, db)
| some oid =>
  let res := deleteFirst (ownerFilter oid user.email) db.books
  if res.2 = 0 then
    (⟨404, Body.obj [("message", "Book not found or unauthorized")]⟩, db)
  else
    (⟨200, Body.obj [("message", "Book deleted successfully")]⟩,
      ⟨res.1, db.nextId⟩)

/-- The routes of the application, with the inputs each consumes. -/
inductive Route where
| root
| addBook (body : Doc)
| allBooks
| bookDetails (id : String)
| myBooks
| updateBook (id : String) (body : Doc)
| deleteBook (id : String)
deriving DecidableEq

/-- Routes registered with the `verifyToken` middleware. -/
def isProtected : Route → Bool
| Route.root => false
| Route.allBooks => false
| _ => true

/-- The application: the liveness route and `/all-books` answer directly;
every other route first runs `verifyToken` and, only on success, its
handler with the attached identity. -/
def handleRoute (verify : String → Option Identity)
    (authHeader : Option String) (now : String) :
    Route → DB → Resp × DB
| Route.root, db => (⟨200, Body.text "Express server is running!"⟩, db)
| Route.allBooks, db => allBooksHandler db
| Route.addBook body, db =>
  match verifyToken verify authHeader with
  | Sum.inl r => (r, db)
  | Sum.inr u => addBookHandler u body now db
| Route.bookDetails id, db =>
  match verifyToken verify authHeader with
  | Sum.inl r => (r, db)
  | Sum.inr _ => bookDetailsHandler id db
| Route.myBooks, db =>
  match verifyToken verify authHeader with
  | Sum.inl r => (r, db)
  | Sum.inr u => myBooksHandler u db
| Route.updateBook id body, db =>
  match verifyToken verify authHeader with
  | Sum.inl r => (r, db)
  | Sum.inr u => updateBookHandler u id body db
| Route.deleteBook id, db =>
  match verifyToken verify authHeader with
  | Sum.inl r => (r, db)
  | Sum.inr u => deleteBookHandler u id db

/-- An `Authorization` header value that fails the middleware's first
check: absent, or present without the `Bearer ` prefix. -/
def badAuthHeader : Option String → Bool
| none => true
| some h => !jsStartsWith h "Bearer "

/-- Whether a response body is JSON (an object or an array) rather than
plain text. -/
def isJsonBody : Body → Bool
| Body.text _ => false
| _ => true

/-- Whether a JSON response body carries a `message` or an `error`
field. -/
def bodyHasMessageOrError : Body → Bool
| Body.obj d => ((getField d "message").isSome || (getField d "error").isSome)
| _ => false

/-! ### Helper lemmas about documents and collection operations -/

theorem getField_setField_self (d : Doc) (k v : String) :
    getField (setField d k v) k = some v := by
  induction d with
  | nil => simp [setField, getField]
  | cons p rest ih =>
    obtain ⟨k', v'⟩ := p
    by_cases hp : k' = k
    · simp [setField, hp, getField]
    · simp [setField, hp, getField, ih]

theorem getField_setField_ne (d : Doc) (k₁ v : String) {k₂ : String}
    (h : k₂ ≠ k₁) : getField (setField d k₁ v) k₂ = getField d k₂ := by
  have h' : ¬ k₁ = k₂ := fun hh => h hh.symm
  induction d with
  | nil => simp [setField, getField, h']
  | cons p rest ih =>
    obtain ⟨k', v'⟩ := p
    by_cases hp : k' = k₁
    · subst hp
      simp [setField, getField, h']
    · by_cases hq : k' = k₂
      · subst hq
        simp [setField, hp, getField]
      · simp [setField, hp, getField, hq, ih]

theorem getField_mergeDoc_of_not_mem (base upd : Doc) {k : String}
    (h : k ∉ upd.map Prod.fst) :
    getField (mergeDoc base upd) k = getField base k := by
  induction upd generalizing base with
  | nil => rfl
  | cons p rest ih =>
    obtain ⟨k', v'⟩ := p
    simp only [List.map_cons, List.mem_cons, not_or] at h
    have step : mergeDoc base ((k', v') :: rest) =
        mergeDoc (setField base k' v') rest := rfl
    rw [step, ih (setField base k' v') h.2,
      getField_setField_ne _ _ _ h.1]

theorem getField_mergeDoc_of_mem (upd : Doc) (k v : String) :
    ∀ base : Doc, (k, v) ∈ upd → (upd.map Prod.fst).Nodup →
      getField (mergeDoc base upd) k = some v := by
  induction upd with
  | nil =>
    intro base hmem _
    cases hmem
  | cons p rest ih =>
    intro base hmem hnd
    obtain ⟨k', v'⟩ := p
    have step : mergeDoc base ((k', v') :: rest) =
        mergeDoc (setField base k' v') rest := rfl
    simp only [List.map_cons, List.nodup_cons] at hnd
    rcases List.mem_cons.mp hmem with heq | htail
    · have hk : k = k' := congrArg Prod.fst heq
      have hv : v = v' := congrArg Prod.snd heq
      subst hk
      subst hv
      rw [step, getField_mergeDoc_of_not_mem _ _ hnd.1,
        getField_setField_self]
    · exact step ▸ ih (setField base k' v') htail hnd.2

theorem updateFirst_of_none (p : BookRecord → Bool)
    (f : BookRecord → BookRecord) (l : List BookRecord)
    (h : ∀ b ∈ l, p b = false) : updateFirst p f l = (l, 0) := by
  induction l with
  | nil => rfl
  | cons b rest ih =>
    have hb : p b = false := h b (by simp)
    simp [updateFirst, hb, ih fun x hx => h x (by simp [hx])]

theorem updateFirst_append (p : BookRecord → Bool)
    (f : BookRecord → BookRecord) (pre : List BookRecord)
    (b : BookRecord) (post : List BookRecord)
    (hpre : ∀ x ∈ pre, p x = false) (hb : p b = true) :
    updateFirst p f (pre ++ b :: post) = (pre ++ f b :: post, 1) := by
  induction pre with
  | nil => simp [updateFirst, hb]
  | cons a rest ih =>
    have ha : p a = false := hpre a (by simp)
    simp [updateFirst, ha, ih fun x hx => hpre x (by simp [hx])]

theorem deleteFirst_of_none (p : BookRecord → Bool) (l : List BookRecord)
    (h : ∀ b ∈ l, p b = false) : deleteFirst p l = (l, 0) := by
  induction l with
  | nil => rfl
  | cons b rest ih =>
    have hb : p b = false := h b (by simp)
    simp [deleteFirst, hb, ih fun x hx => h x (by simp [hx])]

theorem deleteFirst_append (p : BookRecord → Bool) (pre : List BookRecord)
    (b : BookRecord) (post : List BookRecord)
    (hpre : ∀ x ∈ pre, p x = false) (hb : p b = true) :
    deleteFirst p (pre ++ b :: post) = (pre ++ post, 1) := by
  induction pre with
  | nil => simp [deleteFirst, hb]
  | cons a rest ih =>
    have ha : p a = false := hpre a (by simp)
    simp [deleteFirst, ha, ih fun x hx => hpre x (by simp [hx])]

theorem verifyToken_of_bad (verify : String → Option Identity)
    {h : Option String} (hb : badAuthHeader h = true) :
    verifyToken verify h =
      Sum.inl ⟨401, Body.obj [("message", "Unauthorized: No token provided")]⟩ := by
  cases h with
  | none => rfl
  | some s =>
    simp only [badAuthHeader, Bool.not_eq_true'] at hb
    simp [verifyToken, hb]

theorem verifyToken_cases (verify : String → Option Identity)
    (h : Option String) :
    verifyToken verify h =
        Sum.inl ⟨401, Body.obj [("message", "Unauthorized: No token provided")]⟩ ∨
      verifyToken verify h =
        Sum.inl ⟨401, Body.obj [("message", "Unauthorized: Invalid token")]⟩ ∨
      ∃ u, verifyToken verify h = Sum.inr u := by
  cases h with
  | none => exact Or.inl rfl
  | some s =>
    by_cases hs : jsStartsWith s "Bearer " = true
    · cases hv : verify ((jsSplit s).getD 1 "") with
      | none =>
        refine Or.inr (Or.inl ?_)
        simp only [verifyToken]
        rw [if_pos hs, hv]
      | some u =>
        refine Or.inr (Or.inr ⟨u, ?_⟩)
        simp only [verifyToken]
        rw [if_pos hs, hv]
    · exact Or.inl (by simp [verifyToken, hs])

/-! ### Claim theorems -/

/-- C2: for every authenticated create-book request, with any request
body — including one carrying its own `userEmail` field — the inserted
record's `userEmail` equals the decoded token's email (the handler
spreads the body and then overrides `userEmail` from `req.user.email`),
and the response carries the storage-generated identifier `db.nextId`,
which is exactly the `_id` assigned to the inserted record. -/
theorem C2_create_overrides_owner (verify : String → Option Identity)
    (h : String) (user : Identity) (body : Doc) (now : String) (db : DB)
    (hs : jsStartsWith h "Bearer " = true)
    (hv : verify ((jsSplit h).getD 1 "") = some user) :
    handleRoute verify (some h) now (Route.addBook body) db =
      (⟨200, Body.obj [("message", "Book added successfully"),
        ("bookId", toString db.nextId)]⟩,
       ⟨db.books ++ [⟨db.nextId,
          setField (setField (setField body "userEmail" user.email)
            "userName" (jsOrStr user.name user.email)) "createdAt" now⟩],
        db.nextId + 1⟩) ∧
    getField (setField (setField (setField body "userEmail" user.email)
        "userName" (jsOrStr user.name user.email)) "createdAt" now)
      "userEmail" = some user.email := by
  constructor
  · simp only [handleRoute, verifyToken]
    rw [if_pos hs, hv]
    rfl
  · rw [getField_setField_ne _ _ _ (by decide),
      getField_setField_ne _ _ _ (by decide), getField_setField_self]

/-- Witness for C2 at a concrete input whose body already carries a
`userEmail` field, which the handler overrides. -/
theorem C2_create_overrides_owner_witness :
    handleRoute (fun t => if t = "tok" then some ⟨"u1@x.com", none⟩ else none)
        (some "Bearer tok") "t0"
        (Route.addBook [("title", "A"), ("userEmail", "evil@x.com")])
        ⟨[], 1⟩ =
      (⟨200, Body.obj [("message", "Book added successfully"),
        ("bookId", "1")]⟩,
       ⟨[⟨1, [("title", "A"), ("userEmail", "u1@x.com"),
          ("userName", "u1@x.com"), ("createdAt", "t0")]⟩], 2⟩) ∧
    getField (setField (setField (setField
        [("title", "A"), ("userEmail", "evil@x.com")] "userEmail" "u1@x.com")
        "userName" (jsOrStr none "u1@x.com")) "createdAt" "t0")
      "userEmail" = some "u1@x.com" := by
  have := C2_create_overrides_owner
    (fun t => if t = "tok" then some ⟨"u1@x.com", none⟩ else none)
    "Bearer tok" ⟨"u1@x.com", none⟩
    [("title", "A"), ("userEmail", "evil@x.com")] "t0" ⟨[], 1⟩
    (by decide) (by decide)
  exact ⟨this.1, this.2⟩

/-- C3: when the owner-scoped filter of the update or delete operation
matches no stored record — the identifier matches nothing, or the
matching record's `userEmail` differs from the caller's email — both
handlers answer 404 with the same "Book not found or unauthorized"
message and leave the database state unchanged. -/
theorem C3_no_match_is_404_and_unchanged (user : Identity) (id : String)
    (body : Doc) (db : DB) (oid : Nat)
    (hid : parseObjectId id = some oid)
    (hnone : ∀ b ∈ db.books, ownerFilter oid user.email b = false) :
    updateBookHandler user id body db =
      (⟨404, Body.obj [("message", "Book not found or unauthorized")]⟩, db) ∧
    deleteBookHandler user id db =
      (⟨404, Body.obj [("message", "Book not found or unauthorized")]⟩, db) := by
  constructor
  · simp only [updateBookHandler, hid]
    rw [updateFirst_of_none _ _ _ hnone]
    rfl
  · simp only [deleteBookHandler, hid]
    rw [deleteFirst_of_none _ _ hnone]
    rfl

/-- Witness for C3: a caller who is not the owner of the sole stored
record gets 404 from both update and delete, and the state survives. -/
theorem C3_no_match_is_404_and_unchanged_witness :
    updateBookHandler ⟨"u2@x.com", none⟩ "000000000000000000000001"
        [("title", "C")]
        ⟨[⟨1, [("title", "A"), ("userEmail", "u1@x.com")]⟩], 2⟩ =
      (⟨404, Body.obj [("message", "Book not found or unauthorized")]⟩,
        ⟨[⟨1, [("title", "A"), ("userEmail", "u1@x.com")]⟩], 2⟩) ∧
    deleteBookHandler ⟨"u2@x.com", none⟩ "000000000000000000000001"
        ⟨[⟨1, [("title", "A"), ("userEmail", "u1@x.com")]⟩], 2⟩ =
      (⟨404, Body.obj [("message", "Book not found or unauthorized")]⟩,
        ⟨[⟨1, [("title", "A"), ("userEmail", "u1@x.com")]⟩], 2⟩) := by
  exact C3_no_match_is_404_and_unchanged ⟨"u2@x.com", none⟩
    "000000000000000000000001" [("title", "C")]
    ⟨[⟨1, [("title", "A"), ("userEmail", "u1@x.com")]⟩], 2⟩ 1
    (by decide) (by decide)

/-- C4: a request to any protected route whose `Authorization` header is
absent or lacks the `Bearer ` prefix is answered 401 with the no-token
message.  The equation holds for every `verify` function and every
database state, and returns the state unchanged: neither the identity
provider nor the storage layer can influence (or be influenced by) the
request, which formalizes that neither is invoked. -/
theorem C4_bad_header_early_401 (verify : String → Option Identity)
    (h : Option String) (now : String) (r : Route) (db : DB)
    (hr : isProtected r = true) (hb : badAuthHeader h = true) :
    handleRoute verify h now r db =
      (⟨401, Body.obj [("message", "Unauthorized: No token provided")]⟩, db) := by
  have hv := verifyToken_of_bad verify hb
  cases r with
  | root => simp [isProtected] at hr
  | allBooks => simp [isProtected] at hr
  | addBook body => simp [handleRoute, hv]
  | bookDetails id => simp [handleRoute, hv]
  | myBooks => simp [handleRoute, hv]
  | updateBook id body => simp [handleRoute, hv]
  | deleteBook id => simp [handleRoute, hv]

/-- Witness for C4: a header without the `Bearer ` prefix on the
protected `myBooks` route, with a provider that would accept anything —
the request is still rejected before the provider could matter. -/
theorem C4_bad_header_early_401_witness :
    handleRoute (fun t => some ⟨t, none⟩) (some "Basic abc") "t0"
        Route.myBooks ⟨[⟨1, [("userEmail", "u1@x.com")]⟩], 2⟩ =
      (⟨401, Body.obj [("message", "Unauthorized: No token provided")]⟩,
        ⟨[⟨1, [("userEmail", "u1@x.com")]⟩], 2⟩) := by
  exact C4_bad_header_early_401 (fun t => some ⟨t, none⟩) (some "Basic abc")
    "t0" Route.myBooks ⟨[⟨1, [("userEmail", "u1@x.com")]⟩], 2⟩
    (by decide) (by decide)

/-- C5: the get-by-id lookup filters on `_id` alone.  With a well-formed
identifier: if some record matches the identifier the handler returns it
with status 200 — and the whole route's outcome is identical for any two
authenticated callers, since no ownership constraint occurs in the
filter — and if no record matches, the handler answers 404 with "Book
not found". -/
theorem C5_get_by_id_ignores_owner (id : String) (oid : Nat) (db : DB)
    (hid : parseObjectId id = some oid) :
    (∀ b, db.books.find? (fun b' => decide (b'.oid = oid)) = some b →
      bookDetailsHandler id db = (⟨200, Body.obj (bookToDoc b)⟩, db)) ∧
    (db.books.find? (fun b' => decide (b'.oid = oid)) = none →
      bookDetailsHandler id db =
        (⟨404, Body.obj [("message", "Book not found")]⟩, db)) ∧
    (∀ (u₁ u₂ : Identity) (verify₁ verify₂ : String → Option Identity)
        (h₁ h₂ now₁ now₂ : String),
      jsStartsWith h₁ "Bearer " = true →
      jsStartsWith h₂ "Bearer " = true →
      verify₁ ((jsSplit h₁).getD 1 "") = some u₁ →
      verify₂ ((jsSplit h₂).getD 1 "") = some u₂ →
      handleRoute verify₁ (some h₁) now₁ (Route.bookDetails id) db =
        handleRoute verify₂ (some h₂) now₂ (Route.bookDetails id) db) := by
  refine ⟨?_, ?_, ?_⟩
  · intro b hb
    simp [bookDetailsHandler, hid, hb]
  · intro hb
    simp [bookDetailsHandler, hid, hb]
  · intro u₁ u₂ verify₁ verify₂ h₁ h₂ now₁ now₂ hs₁ hs₂ hv₁ hv₂
    have e₁ : verifyToken verify₁ (some h₁) = Sum.inr u₁ := by
      simp only [verifyToken]
      rw [if_pos hs₁, hv₁]
    have e₂ : verifyToken verify₂ (some h₂) = Sum.inr u₂ := by
      simp only [verifyToken]
      rw [if_pos hs₂, hv₂]
    simp [handleRoute, e₁, e₂]

/-- Witness for C5: a caller distinct from the record's owner fetches
the record by id and receives it, and two different callers get the same
answer. -/
theorem C5_get_by_id_ignores_owner_witness :
    bookDetailsHandler "000000000000000000000001"
        ⟨[⟨1, [("title", "A"), ("userEmail", "u1@x.com")]⟩], 2⟩ =
      (⟨200, Body.obj
        [("_id", "1"), ("title", "A"), ("userEmail", "u1@x.com")]⟩,
       ⟨[⟨1, [("title", "A"), ("userEmail", "u1@x.com")]⟩], 2⟩) ∧
    handleRoute (fun _ => some ⟨"u1@x.com", none⟩) (some "Bearer t") "t0"
        (Route.bookDetails "000000000000000000000001")
        ⟨[⟨1, [("title", "A"), ("userEmail", "u1@x.com")]⟩], 2⟩ =
      handleRoute (fun _ => some ⟨"u2@y.com", none⟩) (some "Bearer t") "t0"
        (Route.bookDetails "000000000000000000000001")
        ⟨[⟨1, [("title", "A"), ("userEmail", "u1@x.com")]⟩], 2⟩ := by
  have := C5_get_by_id_ignores_owner "000000000000000000000001" 1
    ⟨[⟨1, [("title", "A"), ("userEmail", "u1@x.com")]⟩], 2⟩ (by decide)
  constructor
  · exact this.1 ⟨1, [("title", "A"), ("userEmail", "u1@x.com")]⟩ (by decide)
  · exact this.2.2 ⟨"u1@x.com", none⟩ ⟨"u2@y.com", none⟩
      (fun _ => some ⟨"u1@x.com", none⟩) (fun _ => some ⟨"u2@y.com", none⟩)
      "Bearer t" "Bearer t" "t0" "t0"
      (by decide) (by decide) (by decide) (by decide)

/-- C6: the list-own operation answers 200 with exactly the records
whose `userEmail` equals the caller's verified email — every record of
the returned list has that owner, and every stored record with that
owner occurs in the returned list — for any population of records, and
it leaves the state unchanged. -/
theorem C6_list_own_is_exact_owner_subset (user : Identity) (db : DB) :
    myBooksHandler user db =
      (⟨200, Body.arr ((db.books.filter (fun b =>
        decide (getField b.fields "userEmail" = some user.email))).map
          bookToDoc)⟩, db) ∧
    (∀ b ∈ db.books.filter (fun b =>
        decide (getField b.fields "userEmail" = some user.email)),
      getField b.fields "userEmail" = some user.email) ∧
    (∀ b ∈ db.books, getField b.fields "userEmail" = some user.email →
      b ∈ db.books.filter (fun b =>
        decide (getField b.fields "userEmail" = some user.email))) := by
  refine ⟨rfl, ?_, ?_⟩
  · intro b hb
    have h := List.mem_filter.mp hb
    simpa using h.2
  · intro b hb he
    exact List.mem_filter.mpr ⟨hb, by simpa using he⟩

/-- Witness for C6 on a population with two distinct owners: the caller
receives exactly their own two records, and the foreign record is
excluded. -/
theorem C6_list_own_is_exact_owner_subset_witness :
    myBooksHandler ⟨"u1@x.com", none⟩
        ⟨[⟨1, [("title", "A"), ("userEmail", "u1@x.com")]⟩,
          ⟨2, [("title", "B"), ("userEmail", "u2@y.com")]⟩,
          ⟨3, [("title", "C"), ("userEmail", "u1@x.com")]⟩], 4⟩ =
      (⟨200, Body.arr
        [[("_id", "1"), ("title", "A"), ("userEmail", "u1@x.com")],
         [("_id", "3"), ("title", "C"), ("userEmail", "u1@x.com")]]⟩,
       ⟨[⟨1, [("title", "A"), ("userEmail", "u1@x.com")]⟩,
         ⟨2, [("title", "B"), ("userEmail", "u2@y.com")]⟩,
         ⟨3, [("title", "C"), ("userEmail", "u1@x.com")]⟩], 4⟩) := by
  have h := C6_list_own_is_exact_owner_subset ⟨"u1@x.com", none⟩
    ⟨[⟨1, [("title", "A"), ("userEmail", "u1@x.com")]⟩,
      ⟨2, [("title", "B"), ("userEmail", "u2@y.com")]⟩,
      ⟨3, [("title", "C"), ("userEmail", "u1@x.com")]⟩], 4⟩
  exact h.1.trans (by decide)

/-- C7: a successful partial update merges, it does not replace.  When
the first record matched by the owner-scoped filter is `b`, the handler
answers 200, rewrites exactly that record to `mergeDoc b.fields body`
(all other records and the id counter untouched), and every field whose
key does not occur in the update body keeps its previous value.  The
hypothesis that the body does not address `_id` keeps the statement in
the region where Mongo accepts the `$set` (Mongo rejects any attempt to
modify the immutable `_id`). -/
theorem C7_update_merges_and_frames (user : Identity) (id : String)
    (body : Doc) (db : DB) (oid : Nat) (pre post : List BookRecord)
    (b : BookRecord)
    (hid : parseObjectId id = some oid)
    (hdb : db.books = pre ++ b :: post)
    (hpre : ∀ x ∈ pre, ownerFilter oid user.email x = false)
    (hb : ownerFilter oid user.email b = true)
    (_hnoId : "_id" ∉ body.map Prod.fst) :
    updateBookHandler user id body db =
      (⟨200, Body.obj [("message", "Book updated successfully")]⟩,
        ⟨pre ++ ⟨b.oid, mergeDoc b.fields body⟩ :: post, db.nextId⟩) ∧
    (∀ k, k ∉ body.map Prod.fst →
      getField (mergeDoc b.fields body) k = getField b.fields k) := by
  constructor
  · simp only [updateBookHandler, hid, hdb]
    rw [updateFirst_append _ _ _ _ _ hpre hb]
    rfl
  · intro k hk
    exact getField_mergeDoc_of_not_mem b.fields body hk

/-- Witness for C7: updating only `title` leaves `author`, `userEmail`
and the neighbouring record untouched. -/
theorem C7_update_merges_and_frames_witness :
    updateBookHandler ⟨"u1@x.com", none⟩ "000000000000000000000002"
        [("title", "C")]
        ⟨[⟨1, [("title", "Z"), ("userEmail", "u2@y.com")]⟩,
          ⟨2, [("title", "A"), ("author", "B"),
            ("userEmail", "u1@x.com")]⟩], 3⟩ =
      (⟨200, Body.obj [("message", "Book updated successfully")]⟩,
       ⟨[⟨1, [("title", "Z"), ("userEmail", "u2@y.com")]⟩,
         ⟨2, mergeDoc [("title", "A"), ("author", "B"),
           ("userEmail", "u1@x.com")] [("title", "C")]⟩], 3⟩) ∧
    getField (mergeDoc [("title", "A"), ("author", "B"),
      ("userEmail", "u1@x.com")] [("title", "C")]) "author" = some "B" := by
  have h := C7_update_merges_and_frames ⟨"u1@x.com", none⟩
    "000000000000000000000002" [("title", "C")]
    ⟨[⟨1, [("title", "Z"), ("userEmail", "u2@y.com")]⟩,
      ⟨2, [("title", "A"), ("author", "B"), ("userEmail", "u1@x.com")]⟩], 3⟩
    2 [⟨1, [("title", "Z"), ("userEmail", "u2@y.com")]⟩]
    [] ⟨2, [("title", "A"), ("author", "B"), ("userEmail", "u1@x.com")]⟩
    (by decide) (by decide) (by decide) (by decide) (by decide)
  refine ⟨h.1, ?_⟩
  have h2 := h.2 "author" (by decide)
  rw [h2]
  rfl

/-- C8: a malformed identifier makes the `ObjectId` constructor throw
inside each handler's `try` block, and the `catch` converts it into a
500 JSON error response carrying an `error` field, on all three `:id`
routes, leaving the state unchanged — the process does not crash. -/
theorem C8_malformed_id_is_caught (user : Identity) (id : String)
    (body : Doc) (db : DB) (hid : parseObjectId id = none) :
    bookDetailsHandler id db =
      (⟨500, Body.obj [("error", invalidIdMessage)]⟩, db) ∧
    updateBookHandler user id body db =
      (⟨500, Body.obj [("error", invalidIdMessage)]⟩, db) ∧
    deleteBookHandler user id db =
      (⟨500, Body.obj [("error", invalidIdMessage)]⟩, db) := by
  refine ⟨?_, ?_, ?_⟩
  · simp only [bookDetailsHandler, hid]
  · simp only [updateBookHandler, hid]
  · simp only [deleteBookHandler, hid]

/-- Witness for C8 with the malformed identifier string `abc`. -/
theorem C8_malformed_id_is_caught_witness :
    bookDetailsHandler "abc" ⟨[], 1⟩ =
      (⟨500, Body.obj [("error", invalidIdMessage)]⟩, ⟨[], 1⟩) ∧
    updateBookHandler ⟨"u1@x.com", none⟩ "abc" [("title", "C")] ⟨[], 1⟩ =
      (⟨500, Body.obj [("error", invalidIdMessage)]⟩, ⟨[], 1⟩) ∧
    deleteBookHandler ⟨"u1@x.com", none⟩ "abc" ⟨[], 1⟩ =
      (⟨500, Body.obj [("error", invalidIdMessage)]⟩, ⟨[], 1⟩) := by
  exact C8_malformed_id_is_caught ⟨"u1@x.com", none⟩ "abc" [("title", "C")]
    ⟨[], 1⟩ (by decide)

/-- C10: the header value `Bearer ` (prefix and nothing after it) passes
the prefix check; the token handed to the provider is the second
space-split segment, here the empty string — defined, not absent — and
when the provider rejects it the middleware answers 401 through the
invalid-token branch (not the no-token branch).  The middleware's result
depends on the provider only at that extracted segment, and any
characters after a second space are discarded, as the `Bearer abc def`
computation shows. -/
theorem C10_bearer_blank_goes_to_provider (verify : String → Option Identity)
    (hv : verify "" = none) :
    jsStartsWith "Bearer " "Bearer " = true ∧
    (jsSplit "Bearer ").getD 1 "" = "" ∧
    (∀ v₁ v₂ : String → Option Identity, v₁ "" = v₂ "" →
      verifyToken v₁ (some "Bearer ") = verifyToken v₂ (some "Bearer ")) ∧
    verifyToken verify (some "Bearer ") =
      Sum.inl ⟨401, Body.obj [("message", "Unauthorized: Invalid token")]⟩ ∧
    (jsSplit "Bearer abc def").getD 1 "" = "abc" := by
  have hbear : jsStartsWith "Bearer " "Bearer " = true := by decide
  have hsplit : (jsSplit "Bearer ").getD 1 "" = "" := by decide
  refine ⟨hbear, hsplit, ?_, ?_, by decide⟩
  · intro v₁ v₂ he
    simp only [verifyToken]
    rw [if_pos hbear, hsplit, he, if_pos hbear]
  · simp only [verifyToken]
    rw [if_pos hbear, hsplit, hv]

/-- Witness for C10 with a provider function rejecting every token. -/
theorem C10_bearer_blank_goes_to_provider_witness :
    verifyToken (fun _ => none) (some "Bearer ") =
      Sum.inl ⟨401, Body.obj [("message", "Unauthorized: Invalid token")]⟩ := by
  exact (C10_bearer_blank_goes_to_provider (fun _ => none) rfl).2.2.2.1

/-- C1 counterexample: the record is created by the authenticated user
`a@x.com` (so its stored `userEmail` is `a@x.com`); that same owner then
updates it with a body carrying `userEmail: evil@x.com`.  The update
matches (the caller owns the record), succeeds with status 200, and the
stored `userEmail` afterwards is `evil@x.com` — client input did change
`userEmail` away from the authenticated identity of the creator, so the
claimed immutability fails: `$set: req.body` never strips `userEmail`. -/
theorem C1_counterexample :
    (addBookHandler ⟨"a@x.com", none⟩ [("title", "T")] "t0" ⟨[], 1⟩).2 =
      ⟨[⟨1, [("title", "T"), ("userEmail", "a@x.com"),
        ("userName", "a@x.com"), ("createdAt", "t0")]⟩], 2⟩ ∧
    (updateBookHandler ⟨"a@x.com", none⟩ "000000000000000000000001"
        [("userEmail", "evil@x.com")]
        ⟨[⟨1, [("title", "T"), ("userEmail", "a@x.com"),
          ("userName", "a@x.com"), ("createdAt", "t0")]⟩], 2⟩).1.status
      = 200 ∧
    ((updateBookHandler ⟨"a@x.com", none⟩ "000000000000000000000001"
        [("userEmail", "evil@x.com")]
        ⟨[⟨1, [("title", "T"), ("userEmail", "a@x.com"),
          ("userName", "a@x.com"), ("createdAt", "t0")]⟩], 2⟩).2.books.map
      (fun b => getField b.fields "userEmail")) = [some "evil@x.com"] ∧
    some "evil@x.com" ≠ some "a@x.com" := by
  refine ⟨rfl, rfl, ?_, by decide⟩
  rfl

/-- C1 amended: `userEmail` is server-derived at creation — the create
handler always stores the decoded token's email, whatever the body
says — but it is not immutable afterwards: a successful update whose
body carries a `userEmail` field rewrites the matched record's
`userEmail` to that client-supplied value. -/
theorem C1_amended_owner_set_at_creation_mutable_by_update :
    (∀ (user : Identity) (body : Doc) (now : String) (db : DB),
      (addBookHandler user body now db).2.books =
        db.books ++ [⟨db.nextId,
          setField (setField (setField body "userEmail" user.email)
            "userName" (jsOrStr user.name user.email)) "createdAt" now⟩] ∧
      getField (setField (setField (setField body "userEmail" user.email)
          "userName" (jsOrStr user.name user.email)) "createdAt" now)
        "userEmail" = some user.email) ∧
    (∀ (user : Identity) (id : String) (upd : Doc) (db : DB) (oid : Nat)
        (pre post : List BookRecord) (b : BookRecord) (v : String),
      parseObjectId id = some oid →
      db.books = pre ++ b :: post →
      (∀ x ∈ pre, ownerFilter oid user.email x = false) →
      ownerFilter oid user.email b = true →
      ("userEmail", v) ∈ upd →
      (upd.map Prod.fst).Nodup →
      (updateBookHandler user id upd db).1.status = 200 ∧
      (updateBookHandler user id upd db).2.books =
        pre ++ ⟨b.oid, mergeDoc b.fields upd⟩ :: post ∧
      getField (mergeDoc b.fields upd) "userEmail" = some v) := by
  constructor
  · intro user body now db
    refine ⟨rfl, ?_⟩
    rw [getField_setField_ne _ _ _ (by decide),
      getField_setField_ne _ _ _ (by decide), getField_setField_self]
  · intro user id upd db oid pre post b v hid hdb hpre hb hmem hnd
    have hupd : updateBookHandler user id upd db =
        (⟨200, Body.obj [("message", "Book updated successfully")]⟩,
          ⟨pre ++ ⟨b.oid, mergeDoc b.fields upd⟩ :: post, db.nextId⟩) := by
      simp only [updateBookHandler, hid, hdb]
      rw [updateFirst_append _ _ _ _ _ hpre hb]
      rfl
    refine ⟨by rw [hupd], by rw [hupd], ?_⟩
    exact getField_mergeDoc_of_mem upd _ _ b.fields hmem hnd

/-- Witness for the amended C1: creation by `a@x.com` stores
`userEmail = a@x.com`; the owner's update with body
`userEmail: evil@x.com` succeeds and rewrites the stored value. -/
theorem C1_amended_owner_set_at_creation_mutable_by_update_witness :
    ((addBookHandler ⟨"a@x.com", none⟩ [("title", "T")] "t0" ⟨[], 1⟩).2.books
        = [⟨1, setField (setField (setField [("title", "T")]
          "userEmail" "a@x.com") "userName" (jsOrStr none "a@x.com"))
            "createdAt" "t0"⟩] ∧
      getField (setField (setField (setField [("title", "T")]
        "userEmail" "a@x.com") "userName" (jsOrStr none "a@x.com"))
          "createdAt" "t0") "userEmail" = some "a@x.com") ∧
    ((updateBookHandler ⟨"a@x.com", none⟩ "000000000000000000000001"
        [("userEmail", "evil@x.com")]
        ⟨[⟨1, [("title", "T"), ("userEmail", "a@x.com")]⟩], 2⟩).1.status
      = 200 ∧
    (updateBookHandler ⟨"a@x.com", none⟩ "000000000000000000000001"
        [("userEmail", "evil@x.com")]
        ⟨[⟨1, [("title", "T"), ("userEmail", "a@x.com")]⟩], 2⟩).2.books =
      [⟨1, mergeDoc [("title", "T"), ("userEmail", "a@x.com")]
        [("userEmail", "evil@x.com")]⟩] ∧
    getField (mergeDoc [("title", "T"), ("userEmail", "a@x.com")]
      [("userEmail", "evil@x.com")]) "userEmail" = some "evil@x.com") := by
  constructor
  · exact C1_amended_owner_set_at_creation_mutable_by_update.1
      ⟨"a@x.com", none⟩ [("title", "T")] "t0" ⟨[], 1⟩
  · exact C1_amended_owner_set_at_creation_mutable_by_update.2
      ⟨"a@x.com", none⟩ "000000000000000000000001"
      [("userEmail", "evil@x.com")]
      ⟨[⟨1, [("title", "T"), ("userEmail", "a@x.com")]⟩], 2⟩ 1 [] []
      ⟨1, [("title", "T"), ("userEmail", "a@x.com")]⟩ "evil@x.com"
      (by decide) (by decide) (by decide) (by decide) (by decide)
      (by decide)

/-- Shape every non-liveness response turns out to have: a JSON body,
carrying a `message` or `error` field whenever the status is not 200. -/
def RespOk (r : Resp) : Prop :=
  isJsonBody r.body = true ∧
    (r.status ≠ 200 → bodyHasMessageOrError r.body = true)

theorem respOk_addBook (user : Identity) (body : Doc) (now : String)
    (db : DB) : RespOk (addBookHandler user body now db).1 :=
  ⟨rfl, fun hne => (hne rfl).elim⟩

theorem respOk_allBooks (db : DB) : RespOk (allBooksHandler db).1 :=
  ⟨rfl, fun hne => (hne rfl).elim⟩

theorem respOk_myBooks (user : Identity) (db : DB) :
    RespOk (myBooksHandler user db).1 :=
  ⟨rfl, fun hne => (hne rfl).elim⟩

theorem respOk_bookDetails (id : String) (db : DB) :
    RespOk (bookDetailsHandler id db).1 := by
  cases hp : parseObjectId id with
  | none =>
    simp only [bookDetailsHandler, hp]
    exact ⟨rfl, fun _ => rfl⟩
  | some oid =>
    cases hf : db.books.find? (fun b => decide (b.oid = oid)) with
    | none =>
      simp only [bookDetailsHandler, hp, hf]
      exact ⟨rfl, fun _ => rfl⟩
    | some b =>
      simp only [bookDetailsHandler, hp, hf]
      exact ⟨rfl, fun hne => (hne rfl).elim⟩

theorem respOk_updateBook (user : Identity) (id : String) (body : Doc)
    (db : DB) : RespOk (updateBookHandler user id body db).1 := by
  cases hp : parseObjectId id with
  | none =>
    simp only [updateBookHandler, hp]
    exact ⟨rfl, fun _ => rfl⟩
  | some oid =>
    simp only [updateBookHandler, hp]
    by_cases hn : (updateFirst (ownerFilter oid user.email)
        (fun b => ⟨b.oid, mergeDoc b.fields body⟩) db.books).2 = 0
    · rw [if_pos hn]
      exact ⟨rfl, fun _ => rfl⟩
    · rw [if_neg hn]
      exact ⟨rfl, fun hne => (hne rfl).elim⟩

theorem respOk_deleteBook (user : Identity) (id : String) (db : DB) :
    RespOk (deleteBookHandler user id db).1 := by
  cases hp : parseObjectId id with
  | none =>
    simp only [deleteBookHandler, hp]
    exact ⟨rfl, fun _ => rfl⟩
  | some oid =>
    simp only [deleteBookHandler, hp]
    by_cases hn : (deleteFirst (ownerFilter oid user.email) db.books).2 = 0
    · rw [if_pos hn]
      exact ⟨rfl, fun _ => rfl⟩
    · rw [if_neg hn]
      exact ⟨rfl, fun hne => (hne rfl).elim⟩

/-- C9 counterexample: a request to `/all-books` (not the liveness
route) over an empty collection is answered 200 with the JSON array
`[]`, which carries neither a `message` nor an `error` field — so not
every non-liveness response contains one of those fields. -/
theorem C9_counterexample :
    handleRoute (fun _ => none) none "t0" Route.allBooks ⟨[], 1⟩ =
      (⟨200, Body.arr []⟩, ⟨[], 1⟩) ∧
    Route.allBooks ≠ Route.root ∧
    bodyHasMessageOrError (Body.arr []) = false := by
  refine ⟨rfl, by decide, rfl⟩

/-- C9 amended: every route except the liveness route answers with a
JSON body (an object or an array, never plain text), and every response
whose status is not 200 carries a `message` or `error` field; the 200
responses of the fetch routes return the record or array of records
directly, without such a field. -/
theorem C9_amended_json_and_error_fields (verify : String → Option Identity)
    (h : Option String) (now : String) (r : Route) (db : DB)
    (hr : r ≠ Route.root) :
    isJsonBody (handleRoute verify h now r db).1.body = true ∧
    ((handleRoute verify h now r db).1.status ≠ 200 →
      bodyHasMessageOrError (handleRoute verify h now r db).1.body = true) := by
  cases r with
  | root => exact absurd rfl hr
  | allBooks => exact respOk_allBooks db
  | addBook body =>
    rcases verifyToken_cases verify h with hv | hv | ⟨u, hv⟩
    · simp only [handleRoute, hv]
      exact ⟨rfl, fun _ => rfl⟩
    · simp only [handleRoute, hv]
      exact ⟨rfl, fun _ => rfl⟩
    · simp only [handleRoute, hv]
      exact respOk_addBook u body now db
  | bookDetails id =>
    rcases verifyToken_cases verify h with hv | hv | ⟨u, hv⟩
    · simp only [handleRoute, hv]
      exact ⟨rfl, fun _ => rfl⟩
    · simp only [handleRoute, hv]
      exact ⟨rfl, fun _ => rfl⟩
    · simp only [handleRoute, hv]
      exact respOk_bookDetails id db
  | myBooks =>
    rcases verifyToken_cases verify h with hv | hv | ⟨u, hv⟩
    · simp only [handleRoute, hv]
      exact ⟨rfl, fun _ => rfl⟩
    · simp only [handleRoute, hv]
      exact ⟨rfl, fun _ => rfl⟩
    · simp only [handleRoute, hv]
      exact respOk_myBooks u db
  | updateBook id body =>
    rcases verifyToken_cases verify h with hv | hv | ⟨u, hv⟩
    · simp only [handleRoute, hv]
      exact ⟨rfl, fun _ => rfl⟩
    · simp only [handleRoute, hv]
      exact ⟨rfl, fun _ => rfl⟩
    · simp only [handleRoute, hv]
      exact respOk_updateBook u id body db
  | deleteBook id =>
    rcases verifyToken_cases verify h with hv | hv | ⟨u, hv⟩
    · simp only [handleRoute, hv]
      exact ⟨rfl, fun _ => rfl⟩
    · simp only [handleRoute, hv]
      exact ⟨rfl, fun _ => rfl⟩
    · simp only [handleRoute, hv]
      exact respOk_deleteBook u id db

/-- Witness for the amended C9 on a 404 path: deleting an absent record
yields a JSON body carrying a `message` field. -/
theorem C9_amended_json_and_error_fields_witness :
    isJsonBody (handleRoute (fun _ => some ⟨"u1@x.com", none⟩)
      (some "Bearer t") "t0" (Route.deleteBook "000000000000000000000009")
      ⟨[], 1⟩).1.body = true ∧
    ((handleRoute (fun _ => some ⟨"u1@x.com", none⟩) (some "Bearer t") "t0"
        (Route.deleteBook "000000000000000000000009") ⟨[], 1⟩).1.status ≠ 200 →
      bodyHasMessageOrError (handleRoute (fun _ => some ⟨"u1@x.com", none⟩)
        (some "Bearer t") "t0" (Route.deleteBook "000000000000000000000009")
        ⟨[], 1⟩).1.body = true) := by
  exact C9_amended_json_and_error_fields (fun _ => some ⟨"u1@x.com", none⟩)
    (some "Bearer t") "t0" (Route.deleteBook "000000000000000000000009")
    ⟨[], 1⟩ (by decide)
